import Mathlib

/-! Shallow embedding of the visitor-registry logic of
`src/gatekeeper-advanced.go` (Fontys gatekeeper API).

The database is modelled as the list of rows of the single table
`visitors(name, plate)`, in insertion order.  Each SQL statement the Go
code issues is embedded as a function on that list:

* `SELECT name, plate FROM visitors`                  → `selectAll`
* `SELECT ... FROM visitors WHERE plate = ?`          → `selectWherePlate`
* `INSERT INTO visitors (name, plate) VALUES (?, ?)`  → `insertRow`
* `DELETE FROM visitors WHERE plate = '...'`          → `deleteWherePlate`

The HTTP handlers (`getVisitors`, `addVisitor`, `removeVisitor`) are
embedded as functions from the request data and the table state to an
`Outcome`: an HTTP response paired with the resulting table state, the
early return taken after a failed JSON bind, or termination of the whole
process by `log.Fatalf`.  An unexpected database failure during the
INSERT (resp. DELETE) statement is injected through a `Bool` argument of
the handler; `false` means the statement succeeds, which is the only
behaviour the SELECT-based code paths can observe because their query
errors are discarded (`rows, _ = db.Query(...)`).
-/

namespace Gatekeeper

/-- The `visitors` struct of the Go source: one row of the `visitors`
table, serialised to JSON as `{name, plate}`. -/
structure visitors where
  Name : String
  Plate : String
deriving DecidableEq, Repr

/-- The state of the `visitors` table: its rows in insertion order. -/
abbrev Registry := List visitors

/-- Semantics of `SELECT name, plate FROM visitors`: every row. -/
def selectAll (r : Registry) : List visitors := r

/-- Semantics of `SELECT name, plate FROM visitors WHERE plate = ?`:
the rows whose plate equals the argument exactly, in table order. -/
def selectWherePlate (p : String) (r : Registry) : List visitors :=
  r.filter (fun w => w.Plate == p)

/-- Semantics of `INSERT INTO visitors (name, plate) VALUES (?, ?)`:
append the new row. -/
def insertRow (v : visitors) (r : Registry) : Registry :=
  r ++ [v]

/-- Semantics of `DELETE FROM visitors WHERE plate = '...'`: drop every
row whose plate equals the argument exactly. -/
def deleteWherePlate (p : String) (r : Registry) : Registry :=
  r.filter (fun w => w.Plate != p)

/-- `checkPlateAlreadyInDB` (gatekeeper-advanced.go, lines 556-577): runs
the plate-filtered SELECT and scans the returned rows, answering `true`
as soon as a row's plate equals the given plate. -/
def checkPlateAlreadyInDB (givenPlate : String) (r : Registry) : Bool :=
  (selectWherePlate givenPlate r).any (fun row => row.Plate == givenPlate)

/-- `getVisitorsFromDB` (lines 227-268): with an empty plate argument it
runs the unfiltered SELECT, otherwise the plate-filtered one, and builds
the visitor list row by row.  The Go function returns the built slice,
which is nil exactly when no row was appended; here that is the empty
list.  (The `len(visitorList) == 0` early return inside the loop sits
after an append and is unreachable.) -/
def getVisitorsFromDB (enteredPlate : String) (r : Registry) : List visitors :=
  if enteredPlate == "" then selectAll r else selectWherePlate enteredPlate r

/-- `addNewVisitorToDB` (lines 196-210): runs the parameterised INSERT;
if the query errors it calls `log.Fatalf`, modelled as `none` (the
process terminates).  On success the row is appended. -/
def addNewVisitorToDB (insertFails : Bool) (visitor : visitors) (r : Registry) :
    Option Registry :=
  if insertFails then none else some (insertRow visitor r)

/-- A JSON response body: a message object, a visitor array, or a single
echoed visitor record. -/
inductive Body where
  | message (s : String)
  | list (l : List visitors)
  | record (v : visitors)
deriving DecidableEq, Repr

/-- Result of running one handler: an HTTP response together with the
table state it leaves behind, the early return after `c.BindJSON`
failed (gin itself writes the 400 abort), or process termination via
`log.Fatalf`. -/
inductive Outcome where
  | response (status : Nat) (body : Body) (reg : Registry)
  | bindAbort (reg : Registry)
  | fatal
deriving DecidableEq, Repr

/-- The table state an outcome leaves behind, when the process survives. -/
def Outcome.finalRegistry : Outcome → Option Registry
  | .response _ _ reg => some reg
  | .bindAbort reg => some reg
  | .fatal => none

/-- `getVisitors` (lines 104-114), handler of both GET `/visitors`
(where `c.Param("plate")` is the empty string) and GET
`/visitors/:plate`: when `getVisitorsFromDB` hands back no rows it
answers 404, otherwise 200 with the rows. -/
def getVisitors (plateParam : String) (r : Registry) : Outcome :=
  let results := getVisitorsFromDB plateParam r
  if results.isEmpty then
    .response 404 (.message "Plate is not found in the database") r
  else
    .response 200 (.list results) r

/-- `addVisitor` (lines 125-158), handler of POST `/visitors`: early
return when the JSON bind fails; 400 when name or plate is empty; 409
when the plate is already present; otherwise `addNewVisitorToDB` runs
the INSERT and the handler answers 201 echoing the new record.  The
`if addNewVisitorToDB(newVisitor); err != nil` 500 branch of the source
tests the stale nil `err` of `initializeDB` and is unreachable; an
INSERT failure instead hits `log.Fatalf` inside `addNewVisitorToDB`. -/
def addVisitor (insertFails : Bool) (body : Option visitors) (r : Registry) :
    Outcome :=
  match body with
  | none => .bindAbort r
  | some newVisitor =>
    if newVisitor.Name == "" || newVisitor.Plate == "" then
      .response 400 (.message "Name and plate are required") r
    else if checkPlateAlreadyInDB newVisitor.Plate r then
      .response 409 (.message "Plate already in database") r
    else
      match addNewVisitorToDB insertFails newVisitor r with
      | none => .fatal
      | some r2 => .response 201 (.record newVisitor) r2

/-- `removeVisitor` (lines 160-187), handler of DELETE
`/visitors/:plate`: 409 when the plate is absent; otherwise it runs the
DELETE statement, answering 500 if that query errors and 200 on
success. -/
def removeVisitor (deleteFails : Bool) (plateParam : String) (r : Registry) :
    Outcome :=
  if !(checkPlateAlreadyInDB plateParam r) then
    .response 409 (.message "Plate is not found in the database") r
  else if deleteFails then
    .response 500 (.message "Internal server error") r
  else
    .response 200 (.message "Plate removed") (deleteWherePlate plateParam r)

/-- The DELETE statement of `removeVisitor` (lines 178-184) viewed as the
registry operation the spec calls `deleteByPlate`: `db.Query` errors
only on a database failure, never because zero rows matched, so with a
healthy database it returns the filtered table. -/
def deleteByPlate (dbFail : Bool) (p : String) (r : Registry) :
    Except String Registry :=
  if dbFail then .error "Internal server error" else .ok (deleteWherePlate p r)

/-- The existence check answers true exactly when some row's plate
equals the given plate: the SELECT keeps exact matches and the Go loop
re-checks equality on each returned row. -/
theorem checkPlate_spec (p : String) (r : Registry) :
    checkPlateAlreadyInDB p r = true ↔ ∃ w ∈ r, w.Plate = p := by
  simp [checkPlateAlreadyInDB, selectWherePlate, List.any_eq_true,
    List.mem_filter]

/-- The plate-filtered SELECT returns no rows when no row matches. -/
theorem selectWhere_eq_nil (p : String) (r : Registry)
    (h : ∀ w ∈ r, w.Plate ≠ p) : selectWherePlate p r = [] := by
  rw [selectWherePlate, List.filter_eq_nil_iff]
  intro w hw
  simpa using h w hw

/-- Membership in the table after the DELETE statement. -/
theorem mem_deleteWherePlate (p : String) (r : Registry) (w : visitors) :
    w ∈ deleteWherePlate p r ↔ w ∈ r ∧ w.Plate ≠ p := by
  simp [deleteWherePlate, List.mem_filter]

/-- Running the DELETE statement twice changes nothing the second time. -/
theorem deleteWherePlate_idem (p : String) (r : Registry) :
    deleteWherePlate p (deleteWherePlate p r) = deleteWherePlate p r := by
  rw [deleteWherePlate, List.filter_eq_self]
  intro w hw
  have := (mem_deleteWherePlate p r w).mp hw
  simpa using this.2

/-- C1, counterexample: on the empty registry, GET `/visitors` with no
plate filter answers 404 with the not-found message, not 200 with an
empty array, because `getVisitors` checks only whether the result list
is empty and does not distinguish the unfiltered route. -/
theorem C1_counterexample :
    getVisitors "" ([] : Registry)
      = Outcome.response 404 (Body.message "Plate is not found in the database") []
    ∧ getVisitors "" ([] : Registry)
      ≠ Outcome.response 200 (Body.list []) [] := by
  exact ⟨rfl, by decide⟩

/-- C1, amended: GET `/visitors` with no plate filter answers 200 with
the array of all visitors whenever the registry is non-empty; on the
empty registry the handler takes the same 404 path as the filtered
route. -/
theorem C1_list_all_endpoint (r : Registry) (h : r ≠ []) :
    getVisitors "" r = Outcome.response 200 (Body.list r) r := by
  have he : r.isEmpty = false := by
    simpa using h
  simp [getVisitors, getVisitorsFromDB, selectAll, he]

/-- C1, witness for the amended theorem at a one-row registry. -/
theorem C1_witness :
    ([⟨"Jordy", "ABC-123"⟩] : Registry) ≠ []
    ∧ getVisitors "" [⟨"Jordy", "ABC-123"⟩]
      = Outcome.response 200 (Body.list [⟨"Jordy", "ABC-123"⟩])
          [⟨"Jordy", "ABC-123"⟩] :=
  ⟨by decide, C1_list_all_endpoint [⟨"Jordy", "ABC-123"⟩] (by decide)⟩

/-- C2, counterexample: the insert is unconditional, so starting from a
registry that already holds the plate, insert followed by the
plate-filtered lookup yields two records, not exactly one. -/
theorem C2_counterexample :
    addNewVisitorToDB false ⟨"Piet", "ABC-123"⟩ [⟨"Jordy", "ABC-123"⟩]
      = some [⟨"Jordy", "ABC-123"⟩, ⟨"Piet", "ABC-123"⟩]
    ∧ getVisitorsFromDB "ABC-123" [⟨"Jordy", "ABC-123"⟩, ⟨"Piet", "ABC-123"⟩]
      = [⟨"Jordy", "ABC-123"⟩, ⟨"Piet", "ABC-123"⟩]
    ∧ (getVisitorsFromDB "ABC-123"
        [⟨"Jordy", "ABC-123"⟩, ⟨"Piet", "ABC-123"⟩]).length ≠ 1 := by
  exact ⟨rfl, rfl, by decide⟩

/-- C2, amended: for every visitor with non-empty name and plate and
every starting registry holding no row with that plate, the insert
succeeds and the plate-filtered lookup afterwards yields exactly the one
inserted record. -/
theorem C2_insert_then_list (v : visitors) (r r2 : Registry)
    (_hn : v.Name ≠ "") (hp : v.Plate ≠ "")
    (hfresh : ∀ w ∈ r, w.Plate ≠ v.Plate)
    (hins : addNewVisitorToDB false v r = some r2) :
    getVisitorsFromDB v.Plate r2 = [v] := by
  have hr2 : r2 = insertRow v r := by
    simpa [addNewVisitorToDB] using hins.symm
  subst hr2
  have hbe : (v.Plate == "") = false := by
    simpa using hp
  rw [getVisitorsFromDB, hbe]
  simp only [Bool.false_eq_true, if_false, insertRow, selectWherePlate,
    List.filter_append]
  rw [← selectWherePlate, selectWhere_eq_nil v.Plate r hfresh]
  simp

/-- C2, witness: inserting into the empty registry and looking the plate
up again returns exactly that record. -/
theorem C2_witness :
    addNewVisitorToDB false ⟨"Jordy", "ABC-123"⟩ [] = some [⟨"Jordy", "ABC-123"⟩]
    ∧ getVisitorsFromDB "ABC-123" [⟨"Jordy", "ABC-123"⟩] = [⟨"Jordy", "ABC-123"⟩] :=
  ⟨rfl, C2_insert_then_list ⟨"Jordy", "ABC-123"⟩ [] [⟨"Jordy", "ABC-123"⟩]
    (by decide) (by decide) (by simp) rfl⟩

/-- C3: POST `/visitors` answers 400 when name or plate is empty, 409
with the registry unchanged when some row already carries that plate,
and otherwise inserts the record and answers 201 echoing it. -/
theorem C3_post_endpoint (v : visitors) (r : Registry) :
    ((v.Name = "" ∨ v.Plate = "") →
      addVisitor false (some v) r
        = Outcome.response 400 (Body.message "Name and plate are required") r)
    ∧ (v.Name ≠ "" → v.Plate ≠ "" → (∃ w ∈ r, w.Plate = v.Plate) →
      addVisitor false (some v) r
        = Outcome.response 409 (Body.message "Plate already in database") r)
    ∧ (v.Name ≠ "" → v.Plate ≠ "" → (∀ w ∈ r, w.Plate ≠ v.Plate) →
      addVisitor false (some v) r
        = Outcome.response 201 (Body.record v) (insertRow v r)) := by
  refine ⟨?_, ?_, ?_⟩
  · intro hempty
    have hb : (v.Name == "" || v.Plate == "") = true := by
      rcases hempty with h | h <;> simp [h]
    simp [addVisitor, hb]
  · intro hn hp hex
    have hb : (v.Name == "" || v.Plate == "") = false := by
      simp [hn, hp]
    have hc : checkPlateAlreadyInDB v.Plate r = true :=
      (checkPlate_spec v.Plate r).mpr hex
    simp [addVisitor, hb, hc]
  · intro hn hp hfresh
    have hb : (v.Name == "" || v.Plate == "") = false := by
      simp [hn, hp]
    have hc : checkPlateAlreadyInDB v.Plate r = false := by
      rw [Bool.eq_false_iff]
      intro hc
      rcases (checkPlate_spec v.Plate r).mp hc with ⟨w, hw, hwp⟩
      exact hfresh w hw hwp
    simp [addVisitor, hb, hc, addNewVisitorToDB]

/-- C3, witness: the three branches at concrete requests. -/
theorem C3_witness :
    addVisitor false (some ⟨"", "ABC-123"⟩) []
      = Outcome.response 400 (Body.message "Name and plate are required") []
    ∧ addVisitor false (some ⟨"Piet", "ABC-123"⟩) [⟨"Jordy", "ABC-123"⟩]
      = Outcome.response 409 (Body.message "Plate already in database")
          [⟨"Jordy", "ABC-123"⟩]
    ∧ addVisitor false (some ⟨"Jordy", "ABC-123"⟩) []
      = Outcome.response 201 (Body.record ⟨"Jordy", "ABC-123"⟩)
          (insertRow ⟨"Jordy", "ABC-123"⟩ []) :=
  ⟨(C3_post_endpoint ⟨"", "ABC-123"⟩ []).1 (Or.inl rfl),
   (C3_post_endpoint ⟨"Piet", "ABC-123"⟩ [⟨"Jordy", "ABC-123"⟩]).2.1
     (by decide) (by decide) ⟨⟨"Jordy", "ABC-123"⟩, by simp, rfl⟩,
   (C3_post_endpoint ⟨"Jordy", "ABC-123"⟩ []).2.2
     (by decide) (by decide) (by simp)⟩

/-- C4: DELETE `/visitors/:plate` answers 409 with the registry
unchanged when no row carries the plate, and otherwise answers 200 and
removes exactly the rows carrying that plate. -/
theorem C4_delete_endpoint (p : String) (r : Registry) :
    ((∀ w ∈ r, w.Plate ≠ p) →
      removeVisitor false p r
        = Outcome.response 409 (Body.message "Plate is not found in the database") r)
    ∧ ((∃ w ∈ r, w.Plate = p) →
      removeVisitor false p r
        = Outcome.response 200 (Body.message "Plate removed") (deleteWherePlate p r)
      ∧ ∀ w, w ∈ deleteWherePlate p r ↔ w ∈ r ∧ w.Plate ≠ p) := by
  constructor
  · intro habs
    have hc : checkPlateAlreadyInDB p r = false := by
      rw [Bool.eq_false_iff]
      intro hc
      rcases (checkPlate_spec p r).mp hc with ⟨w, hw, hwp⟩
      exact habs w hw hwp
    simp [removeVisitor, hc]
  · intro hex
    have hc : checkPlateAlreadyInDB p r = true :=
      (checkPlate_spec p r).mpr hex
    exact ⟨by simp [removeVisitor, hc], fun w => mem_deleteWherePlate p r w⟩

/-- C4, witness: deleting an absent plate answers 409 leaving the
registry alone; deleting a present plate answers 200 with the row
removed. -/
theorem C4_witness :
    removeVisitor false "XYZ-999" []
      = Outcome.response 409 (Body.message "Plate is not found in the database") []
    ∧ removeVisitor false "ABC-123" [⟨"Jordy", "ABC-123"⟩]
      = Outcome.response 200 (Body.message "Plate removed")
          (deleteWherePlate "ABC-123" [⟨"Jordy", "ABC-123"⟩]) :=
  ⟨(C4_delete_endpoint "XYZ-999" []).1 (by simp),
   ((C4_delete_endpoint "ABC-123" [⟨"Jordy", "ABC-123"⟩]).2
     ⟨⟨"Jordy", "ABC-123"⟩, by simp, rfl⟩).1⟩

/-- C5: evaluation at the failing input.  A database failure during the
INSERT of POST `/visitors` terminates the process through `log.Fatalf`
in `addNewVisitorToDB` (the 500 branch of `addVisitor` tests the stale
nil error of `initializeDB` and never fires), while a failure during the
DELETE of `removeVisitor` does produce the 500 response. -/
theorem C5_db_failure_behavior :
    addVisitor true (some ⟨"Jordy", "ABC-123"⟩) [] = Outcome.fatal
    ∧ removeVisitor true "ABC-123" [⟨"Jordy", "ABC-123"⟩]
      = Outcome.response 500 (Body.message "Internal server error")
          [⟨"Jordy", "ABC-123"⟩] := by
  exact ⟨rfl, rfl⟩

/-- C6: on a healthy database, running `deleteByPlate` on a plate and
then again on the result does not error the second time and changes
nothing: deleting an absent plate is a no-op, because the DELETE query
errors only on database failure, never on zero matched rows. -/
theorem C6_delete_idempotent (p : String) (r r1 : Registry)
    (h : deleteByPlate false p r = Except.ok r1) :
    deleteByPlate false p r1 = Except.ok r1 := by
  have hr1 : deleteWherePlate p r = r1 := by
    simpa [deleteByPlate] using h
  subst hr1
  simp [deleteByPlate, deleteWherePlate_idem]

/-- C6, witness: delete a present plate, then delete it again. -/
theorem C6_witness :
    deleteByPlate false "ABC-123" ([⟨"Jordy", "ABC-123"⟩] : Registry)
      = Except.ok []
    ∧ deleteByPlate false "ABC-123" ([] : Registry) = Except.ok [] :=
  ⟨rfl, C6_delete_idempotent "ABC-123" [⟨"Jordy", "ABC-123"⟩] [] rfl⟩

/-- C7: the existence check `checkPlateAlreadyInDB` answers true exactly
when at least one row of the registry carries a plate equal to the input
string. -/
theorem C7_exists_by_plate (p : String) (r : Registry) :
    checkPlateAlreadyInDB p r = true ↔ ∃ w ∈ r, w.Plate = p :=
  checkPlate_spec p r

/-- C8, counterexample: at the empty plate string the property fails,
because `deleteByPlate ""` removes only rows whose plate is the empty
string while `getVisitorsFromDB ""` lists the whole table. -/
theorem C8_counterexample :
    deleteByPlate false "" [⟨"Jordy", "ABC-123"⟩]
      = Except.ok [⟨"Jordy", "ABC-123"⟩]
    ∧ getVisitorsFromDB "" [⟨"Jordy", "ABC-123"⟩] = [⟨"Jordy", "ABC-123"⟩]
    ∧ ([⟨"Jordy", "ABC-123"⟩] : List visitors) ≠ [] := by
  exact ⟨rfl, rfl, by decide⟩

/-- C8, amended: for every non-empty plate string, deleting by that
plate and then listing by the same plate yields the empty sequence. -/
theorem C8_delete_then_list (p : String) (r r1 : Registry) (hp : p ≠ "")
    (h : deleteByPlate false p r = Except.ok r1) :
    getVisitorsFromDB p r1 = [] := by
  have hr1 : deleteWherePlate p r = r1 := by
    simpa [deleteByPlate] using h
  subst hr1
  have hbe : (p == "") = false := by
    simpa using hp
  rw [getVisitorsFromDB, hbe]
  simp only [Bool.false_eq_true, if_false]
  apply selectWhere_eq_nil
  intro w hw
  exact ((mem_deleteWherePlate p r w).mp hw).2

/-- C8, witness: delete a present plate from a two-row registry and list
it again. -/
theorem C8_witness :
    ("ABC-123" : String) ≠ ""
    ∧ getVisitorsFromDB "ABC-123" [⟨"Piet", "DEF-456"⟩] = [] :=
  ⟨by decide,
   C8_delete_then_list "ABC-123"
     [⟨"Jordy", "ABC-123"⟩, ⟨"Piet", "DEF-456"⟩] [⟨"Piet", "DEF-456"⟩]
     (by decide) rfl⟩

/-- C9: when the JSON bind of POST `/visitors` fails, the handler
returns at once with the registry untouched; the quantification over the
failure flag shows the INSERT is never attempted (a run that reached it
with a failing database would end in `Outcome.fatal`), and the existence
check is never consulted. -/
theorem C9_bind_abort (insertFails : Bool) (r : Registry) :
    addVisitor insertFails none r = Outcome.bindAbort r := rfl

/-- C10: the read operations are side-effect free: the handler of GET
`/visitors` and GET `/visitors/:plate` leaves the registry it was given
unchanged in every outcome, and the existence check (like every
SELECT-based operation of the embedding) is a pure function of the
registry. -/
theorem C10_reads_preserve_registry (plateParam : String) (r : Registry) :
    (getVisitors plateParam r).finalRegistry = some r := by
  rw [getVisitors]
  by_cases hemp : (getVisitorsFromDB plateParam r).isEmpty
  · simp [hemp, Outcome.finalRegistry]
  · simp [hemp, Outcome.finalRegistry]

end Gatekeeper
